import Mathlib

/-!
Shallow embedding of the data-access layer of `src/server/src/db`
(`queries/base.queries.ts` and `utils/query-helpers.ts`).

JS objects that carry runtime values (identifiers, filters, updates, rows)
are modelled as ordered association lists `List (String × JsValue)`,
matching the enumeration order of `Object.entries`.  The claims under
verification only involve objects with pairwise-distinct keys (typed
records and database rows), for which this model is exact.
Statement execution is modelled by an abstract store function
`Stmt → Except String StoreResult`; each operation returns the list of
statements it issued together with its outcome, which makes "no statement
reaches the store" a provable property.
-/

namespace BaseQueries

/-- Runtime values bound as query parameters.  `undef` and `null` are the
two distinct JS absence markers, which the filter builder treats alike
but the spec distinguishes. -/
inductive JsValue where
  | undef
  | null
  | bool (b : Bool)
  | num (n : Int)
  | str (s : String)
deriving DecidableEq

/-- An ordered JS object, in `Object.entries` enumeration order. -/
abbrev Obj := List (String × JsValue)

/-- Character class of the regex `[A-Z]` in `camelToSnake`. -/
def isUpperAscii (c : Char) : Bool := 65 ≤ c.toNat && c.toNat ≤ 90

/-- Character class of the regex `[a-z]` in `snakeToCamel`. -/
def isLowerAscii (c : Char) : Bool := 97 ≤ c.toNat && c.toNat ≤ 122

/-- `String.prototype.toLowerCase` on an ASCII capital letter. -/
def toLowerChar (c : Char) : Char := Char.ofNat (c.toNat + 32)

/-- `String.prototype.toUpperCase` on an ASCII lowercase letter. -/
def toUpperChar (c : Char) : Char := Char.ofNat (c.toNat - 32)

/-- `camelToSnake` (base.queries.ts line 40):
`str.replace(/[A-Z]/g, (letter) => "_" + letter.toLowerCase())`,
a per-character rewrite. -/
def camelToSnakeList : List Char → List Char
  | [] => []
  | c :: rest =>
    if isUpperAscii c then '_' :: toLowerChar c :: camelToSnakeList rest
    else c :: camelToSnakeList rest

/-- `snakeToCamel` (base.queries.ts line 30):
`str.replace(/_([a-z])/g, (_, letter) => letter.toUpperCase())`,
a left-to-right non-overlapping scan for an underscore followed by a
lowercase letter. -/
def snakeToCamelList : List Char → List Char
  | [] => []
  | ['_'] => ['_']
  | '_' :: c :: rest =>
    if isLowerAscii c then toUpperChar c :: snakeToCamelList rest
    else '_' :: snakeToCamelList (c :: rest)
  | c :: rest => c :: snakeToCamelList rest

/-- String-level `camelToSnake`. -/
def camelToSnake (s : String) : String := ⟨camelToSnakeList s.data⟩

/-- String-level `snakeToCamel`. -/
def snakeToCamel (s : String) : String := ⟨snakeToCamelList s.data⟩

/-- The per-instance configuration of a `BaseQueries` subclass: the table
name and the optional `COLUMN_MAP` override table (domain field →
storage column). -/
structure QueryCtx where
  table : String
  COLUMN_MAP : Option (List (String × String))
deriving DecidableEq

/-- `getColumnName` (line 83):
`this.COLUMN_MAP?.[key] ?? this.camelToSnake(key)` — the override table
is consulted first and exactly; the convention rewrite is the fallback. -/
def getColumnName (ctx : QueryCtx) (key : String) : String :=
  match ctx.COLUMN_MAP.bind (fun m => m.lookup key) with
  | some column => column
  | none => camelToSnake key

/-- `mapRowToEntity` (line 54): the `for..of` loop over `Object.entries(row)`
reassembling the object with `snakeToCamel`-converted keys.  Database rows
have pairwise-distinct column names, so the association-list model is
exact. -/
def mapRowToEntity : Obj → Obj
  | [] => []
  | kv :: rest => (snakeToCamel kv.1, kv.2) :: mapRowToEntity rest

/-- `mapRowsToEntities` (line 72). -/
def mapRowsToEntities (rows : List Obj) : List Obj :=
  rows.map mapRowToEntity

/-- The body of the `entries.forEach` loop of `getColumnMapping`
(lines 107-116), with `index` the 0-based `forEach` index: each entry
contributes `column = $(index+1)` and its value, and an entry whose
mapped column is the empty string (the only falsy string) throws. -/
def getColumnMappingLoop (ctx : QueryCtx) :
    Obj → Nat → Except String (List String × List JsValue)
  | [], _ => .ok ([], [])
  | kv :: rest, index =>
    let column := getColumnName ctx kv.1
    if column = "" then .error ("Invalid column key: " ++ kv.1)
    else
      match getColumnMappingLoop ctx rest (index + 1) with
      | .error e => .error e
      | .ok (conds, values) =>
        .ok ((column ++ " = $" ++ toString (index + 1)) :: conds, kv.2 :: values)

/-- `getColumnMapping` (line 94): rejects an empty identifier object,
otherwise joins the per-entry conditions with " AND ". -/
def getColumnMapping (ctx : QueryCtx) (data : Obj) :
    Except String (String × List JsValue) :=
  if data.length = 0 then .error "Identifier object cannot be empty"
  else
    match getColumnMappingLoop ctx data 0 with
    | .error e => .error e
    | .ok (conds, values) => .ok (String.intercalate " AND " conds, values)

/-- `getUpdateMapping` (line 130): maps each update entry to its
(column, value) pair via `getColumnName`. -/
def getUpdateMapping (ctx : QueryCtx) (updates : Obj) : List (String × JsValue) :=
  updates.map fun kv => (getColumnName ctx kv.1, kv.2)

/-- `getCreateMapping` (line 143): identical shape to `getUpdateMapping`. -/
def getCreateMapping (ctx : QueryCtx) (data : Obj) : List (String × JsValue) :=
  data.map fun kv => (getColumnName ctx kv.1, kv.2)

/-- The `for..of` loop of `buildFilterClause` (lines 166-175): an entry is
included iff its value is neither `undefined` nor `null` and its mapped
column is truthy (non-empty); `paramIndex` advances only on inclusion. -/
def buildFilterLoop (ctx : QueryCtx) :
    Obj → Nat → List String × List JsValue
  | [], _ => ([], [])
  | kv :: rest, paramIndex =>
    if kv.2 ≠ JsValue.undef ∧ kv.2 ≠ JsValue.null then
      let column := getColumnName ctx kv.1
      if column ≠ "" then
        let (conds, params) := buildFilterLoop ctx rest (paramIndex + 1)
        ((column ++ " = $" ++ toString paramIndex) :: conds, kv.2 :: params)
      else buildFilterLoop ctx rest paramIndex
    else buildFilterLoop ctx rest paramIndex

/-- `buildFilterClause` (line 156): `paramIndex` starts at 1; with no
included entry the clause degenerates to the tautology "1=1". -/
def buildFilterClause (ctx : QueryCtx) (filters : Obj) : String × List JsValue :=
  let (conds, params) := buildFilterLoop ctx filters 1
  (if conds.length > 0 then String.intercalate " AND " conds else "1=1", params)

/-- A parameterized statement handed to the store: the SQL text and the
ordered bound parameter array (`pg`'s `query(text, values)`). -/
structure Stmt where
  text : String
  params : List JsValue
deriving DecidableEq

/-- The store's answer to one statement: the returned rows and the
affected-row count (`pg`'s `rowCount`, which may be `null`). -/
structure StoreResult where
  rows : List Obj
  rowCount : Option Nat
deriving DecidableEq

/-- An abstract store: executing a statement either fails with a
low-level error message or yields a `StoreResult`. -/
abbrev Store := Stmt → Except String StoreResult

/-- Errors an operation can surface to its caller.  `validation` is a
plain `Error` thrown by the builders before any statement is issued;
`notFound` is `createNotFoundError(entityName, criteria)`
(query-helpers.ts line 15); `store` wraps a low-level store failure,
rethrown after logging; `runtime` is a JS `TypeError` from reading a
property of a missing row. -/
inductive QError where
  | validation (msg : String)
  | notFound (entityName : String) (criteria : Obj)
  | store (msg : String)
  | runtime (msg : String)
deriving DecidableEq

/-- JS truthiness of a runtime value (`Boolean(v)`), as applied to
`result.rows[0].exists`. -/
def truthy : JsValue → Bool
  | .undef => false
  | .null => false
  | .bool b => b
  | .num n => n ≠ 0
  | .str s => s ≠ ""

/-- The statement `find` (line 194) builds before touching the store. -/
def findQuery (ctx : QueryCtx) (identifier : Obj) : Except String Stmt :=
  match getColumnMapping ctx identifier with
  | .error e => .error e
  | .ok (whereClause, values) =>
    .ok ⟨"SELECT * FROM " ++ ctx.table ++ " WHERE " ++ whereClause ++ " LIMIT 1",
         values⟩

/-- The statement `exists` (line 236) builds before touching the store. -/
def existsQuery (ctx : QueryCtx) (identifier : Obj) : Except String Stmt :=
  match getColumnMapping ctx identifier with
  | .error e => .error e
  | .ok (whereClause, values) =>
    .ok ⟨"SELECT EXISTS(SELECT 1 FROM " ++ ctx.table ++ " WHERE " ++ whereClause ++ ")",
         values⟩

/-- The statement `update` (line 260) builds: SET placeholders are
`$(identifierValues.length + index + 1)` and the parameter array is
`[...identifierValues, ...updateValues]`. -/
def updateQuery (ctx : QueryCtx) (identifier updates : Obj) : Except String Stmt :=
  match getColumnMapping ctx identifier with
  | .error e => .error e
  | .ok (whereClause, identifierValues) =>
    let updateMappings := getUpdateMapping ctx updates
    let setClauses := updateMappings.enum.map fun p =>
      p.2.1 ++ " = $" ++ toString (identifierValues.length + p.1 + 1)
    .ok ⟨"\n        UPDATE " ++ ctx.table ++
         "\n        SET " ++ String.intercalate ", " setClauses ++
         "\n        WHERE " ++ whereClause,
         identifierValues ++ updateMappings.map (fun m => m.2)⟩

/-- The statement `updateAndReturn` (line 300) builds: unlike `update`,
its SET placeholders are `$(identifierValues.length + index + 2)` while
the parameter array is still `[...identifierValues, ...updateValues]`. -/
def updateAndReturnQuery (ctx : QueryCtx) (identifier updates : Obj) :
    Except String Stmt :=
  match getColumnMapping ctx identifier with
  | .error e => .error e
  | .ok (whereClause, identifierValues) =>
    let updateMappings := getUpdateMapping ctx updates
    let setClauses := updateMappings.enum.map fun p =>
      p.2.1 ++ " = $" ++ toString (identifierValues.length + p.1 + 2)
    .ok ⟨"\n        UPDATE " ++ ctx.table ++
         "\n        SET " ++ String.intercalate ", " setClauses ++
         "\n        WHERE " ++ whereClause ++
         "\n        RETURNING *",
         identifierValues ++ updateMappings.map (fun m => m.2)⟩

/-- The statement `delete` (line 342) builds before touching the store. -/
def deleteQuery (ctx : QueryCtx) (identifier : Obj) : Except String Stmt :=
  match getColumnMapping ctx identifier with
  | .error e => .error e
  | .ok (whereClause, values) =>
    .ok ⟨"DELETE FROM " ++ ctx.table ++ " WHERE " ++ whereClause, values⟩

/-- `find` (line 194): builds the statement, issues it, maps the first
returned row (or yields `none`). -/
def runFind (ctx : QueryCtx) (store : Store) (identifier : Obj) :
    List Stmt × Except QError (Option Obj) :=
  match findQuery ctx identifier with
  | .error e => ([], .error (.validation e))
  | .ok stmt =>
    ([stmt],
      match store stmt with
      | .error e => .error (.store e)
      | .ok res => .ok (res.rows.head?.map mapRowToEntity))

/-- `get` (line 218): delegates to `find` and promotes `null` to
`createNotFoundError(table, identifier)`. -/
def runGet (ctx : QueryCtx) (store : Store) (identifier : Obj) :
    List Stmt × Except QError Obj :=
  let (stmts, r) := runFind ctx store identifier
  (stmts,
    match r with
    | .error e => .error e
    | .ok none => .error (.notFound ctx.table identifier)
    | .ok (some entity) => .ok entity)

/-- `exists` (line 236): issues the EXISTS statement and reads
`Boolean(result.rows[0].exists)`; a missing first row is a JS
`TypeError`. -/
def runExists (ctx : QueryCtx) (store : Store) (identifier : Obj) :
    List Stmt × Except QError Bool :=
  match existsQuery ctx identifier with
  | .error e => ([], .error (.validation e))
  | .ok stmt =>
    ([stmt],
      match store stmt with
      | .error e => .error (.store e)
      | .ok res =>
        match res.rows.head? with
        | none => .error (.runtime "TypeError: result.rows[0] is undefined")
        | some row => .ok (truthy ((row.lookup "exists").getD .undef)))

/-- `update` (line 260): issues the UPDATE; a reported `rowCount` of 0 is
promoted to `createNotFoundError(table, identifier)`. -/
def runUpdate (ctx : QueryCtx) (store : Store) (identifier updates : Obj) :
    List Stmt × Except QError Unit :=
  match updateQuery ctx identifier updates with
  | .error e => ([], .error (.validation e))
  | .ok stmt =>
    ([stmt],
      match store stmt with
      | .error e => .error (.store e)
      | .ok res =>
        if res.rowCount = some 0 then .error (.notFound ctx.table identifier)
        else .ok ())

/-- `updateAndReturn` (line 300): as `runUpdate` but maps the first
returned row on success. -/
def runUpdateAndReturn (ctx : QueryCtx) (store : Store) (identifier updates : Obj) :
    List Stmt × Except QError Obj :=
  match updateAndReturnQuery ctx identifier updates with
  | .error e => ([], .error (.validation e))
  | .ok stmt =>
    ([stmt],
      match store stmt with
      | .error e => .error (.store e)
      | .ok res =>
        if res.rowCount = some 0 then .error (.notFound ctx.table identifier)
        else
          match res.rows.head? with
          | none => .error (.runtime "TypeError: result.rows[0] is undefined")
          | some row => .ok (mapRowToEntity row))

/-- `delete` (line 342): issues the DELETE; a reported `rowCount` of 0 is
promoted to `createNotFoundError(table, identifier)`. -/
def runDelete (ctx : QueryCtx) (store : Store) (identifier : Obj) :
    List Stmt × Except QError Unit :=
  match deleteQuery ctx identifier with
  | .error e => ([], .error (.validation e))
  | .ok stmt =>
    ([stmt],
      match store stmt with
      | .error e => .error (.store e)
      | .ok res =>
        if res.rowCount = some 0 then .error (.notFound ctx.table identifier)
        else .ok ())

/-- `deleteAll` (line 471): rejects an empty filter object before building
any statement, otherwise issues the parameterized DELETE and returns
`result.rowCount || 0`. -/
def runDeleteAll (ctx : QueryCtx) (store : Store) (filters : Obj) :
    List Stmt × Except QError Nat :=
  if filters.length = 0 then
    ([], .error (.validation
      ("deleteAll requires at least one filter. Use drop() to delete all records from "
        ++ ctx.table)))
  else
    let (whereClause, params) := buildFilterClause ctx filters
    let stmt : Stmt := ⟨"DELETE FROM " ++ ctx.table ++ " WHERE " ++ whereClause, params⟩
    ([stmt],
      match store stmt with
      | .error e => .error (.store e)
      | .ok res => .ok (res.rowCount.getD 0))

/-- The `options` object of `findAll`/`getAll` (line 369). -/
structure FindOptions where
  limit : Option Int := none
  offset : Option Int := none
  orderBy : Option String := none
  orderDirection : Option String := none
deriving DecidableEq

/-- The statement `findAll` (line 369) builds, threaded exactly as the
source appends the clauses: WHERE, then ORDER BY under the truthiness
guard `options?.orderBy` with direction `options.orderDirection || "ASC"`,
then LIMIT under `options?.limit`, then OFFSET under `options?.offset`,
the latter two each pushing their value after the filter parameters. -/
def findAllQuery (ctx : QueryCtx) (filters : Option Obj)
    (options : Option FindOptions) : Stmt :=
  let wp :=
    match filters with
    | some f => buildFilterClause ctx f
    | none => ("1=1", [])
  let q0 := "SELECT * FROM " ++ ctx.table ++ " WHERE " ++ wp.1
  let q1 :=
    match options with
    | some o =>
      match o.orderBy with
      | some ob =>
        if ob ≠ "" then
          let orderColumn := getColumnName ctx ob
          let dir :=
            match o.orderDirection with
            | some d => if d = "" then "ASC" else d
            | none => "ASC"
          q0 ++ " ORDER BY " ++ orderColumn ++ " " ++ dir
        else q0
      | none => q0
    | none => q0
  let s2 :=
    match options with
    | some o =>
      match o.limit with
      | some l =>
        if l ≠ 0 then
          (q1 ++ " LIMIT $" ++ toString (wp.2.length + 1), wp.2 ++ [JsValue.num l])
        else (q1, wp.2)
      | none => (q1, wp.2)
    | none => (q1, wp.2)
  let s3 :=
    match options with
    | some o =>
      match o.offset with
      | some off =>
        if off ≠ 0 then
          (s2.1 ++ " OFFSET $" ++ toString (s2.2.length + 1), s2.2 ++ [JsValue.num off])
        else s2
      | none => s2
    | none => s2
  ⟨s3.1, s3.2⟩

/-- `getAll` (line 415): `findAll(undefined, options)`. -/
def getAllQuery (ctx : QueryCtx) (options : Option FindOptions) : Stmt :=
  findAllQuery ctx none options

/-- Spec-side definition (predicate-builder section of the spec): the
filter entries that survive skipping — value neither `undefined` nor
`null`, and a truthy mapped column. -/
def includedFilters (ctx : QueryCtx) (filters : Obj) : Obj :=
  filters.filter fun kv =>
    !(kv.2 == JsValue.undef) && !(kv.2 == JsValue.null)
      && !(getColumnName ctx kv.1 == "")

/-- Spec-side definition: "each included entry becomes
`column = placeholder`, placeholders numbered positionally starting at 1
and increasing in the iteration order of the input mapping", generalized
to an arbitrary first placeholder number `n`. -/
def specConds (ctx : QueryCtx) : Obj → Nat → List String
  | [], _ => []
  | kv :: rest, n =>
    (getColumnName ctx kv.1 ++ " = $" ++ toString n) :: specConds ctx rest (n + 1)

/-- Spec-side reading of `options?.orderBy` being requested (truthy). -/
def requestedOrderBy (options : Option FindOptions) : Option String :=
  match options with
  | some o =>
    match o.orderBy with
    | some ob => if ob ≠ "" then some ob else none
    | none => none
  | none => none

/-- Spec-side reading of the order direction,
"one of ascending/descending, default ascending". -/
def requestedDirection (options : Option FindOptions) : String :=
  match options with
  | some o =>
    match o.orderDirection with
    | some d => if d = "" then "ASC" else d
    | none => "ASC"
  | none => "ASC"

/-- Spec-side reading of `options?.limit` being requested (truthy). -/
def requestedLimit (options : Option FindOptions) : Option Int :=
  match options with
  | some o =>
    match o.limit with
    | some l => if l ≠ 0 then some l else none
    | none => none
  | none => none

/-- Spec-side reading of `options?.offset` being requested (truthy). -/
def requestedOffset (options : Option FindOptions) : Option Int :=
  match options with
  | some o =>
    match o.offset with
    | some off => if off ≠ 0 then some off else none
    | none => none
  | none => none

/-- Spec-side definition (select-composition section of the spec): WHERE,
then ORDER BY only if requested (consuming no placeholder), then LIMIT
only if requested (placeholder `k+1` after the `k` filter parameters),
then OFFSET only if requested (the next placeholder after LIMIT), values
appended to the parameter array in that order. -/
def specFindAllStmt (ctx : QueryCtx) (filters : Option Obj)
    (options : Option FindOptions) : Stmt :=
  let fp :=
    match filters with
    | some f => buildFilterClause ctx f
    | none => ("1=1", [])
  let k := fp.2.length
  let orderClause :=
    match requestedOrderBy options with
    | some ob => " ORDER BY " ++ getColumnName ctx ob ++ " " ++ requestedDirection options
    | none => ""
  let limitTaken := match requestedLimit options with | some _ => 1 | none => 0
  let limitClause :=
    match requestedLimit options with
    | some _ => " LIMIT $" ++ toString (k + 1)
    | none => ""
  let offsetClause :=
    match requestedOffset options with
    | some _ => " OFFSET $" ++ toString (k + limitTaken + 1)
    | none => ""
  let limitParams :=
    match requestedLimit options with
    | some l => [JsValue.num l]
    | none => []
  let offsetParams :=
    match requestedOffset options with
    | some off => [JsValue.num off]
    | none => []
  ⟨"SELECT * FROM " ++ ctx.table ++ " WHERE " ++ fp.1
     ++ orderClause ++ limitClause ++ offsetClause,
   fp.2 ++ limitParams ++ offsetParams⟩

/-- Whether the override table has an entry for a domain field. -/
def hasOverride (ctx : QueryCtx) (key : String) : Bool :=
  (ctx.COLUMN_MAP.bind fun m => m.lookup key).isSome

/-- True when the character list contains no underscore immediately
followed by a lowercase ASCII letter — the one pattern on which the
`camelToSnake`/`snakeToCamel` round trip is not the identity. -/
def noUnderscoreLower : List Char → Bool
  | [] => true
  | [_] => true
  | a :: b :: rest => !(a == '_' && isLowerAscii b) && noUnderscoreLower (b :: rest)

/-- String-level `noUnderscoreLower`. -/
def noUnderscoreLowerStr (s : String) : Bool := noUnderscoreLower s.data

/-- Whether a string contains an ASCII capital letter.  A field name
without one has no capital-letter naming boundary at all: no consecutive
capitals, no leading capital, and no digit adjacent to a capital. -/
def containsUpperAscii (s : String) : Bool := s.data.any isUpperAscii

/-- Whether a string contains an ASCII digit. -/
def containsDigitAscii (s : String) : Bool :=
  s.data.any fun c => 48 ≤ c.toNat && c.toNat ≤ 57

/-- Domain-to-storage key-wise conversion of a whole entity: exactly
`getCreateMapping` (line 143), whose output pairs form the stored row. -/
def entityToRow (ctx : QueryCtx) (entity : Obj) : Obj :=
  getCreateMapping ctx entity

/-- A subclass with table `users` and no `COLUMN_MAP` override table. -/
def ctxUsers : QueryCtx := ⟨"users", none⟩

/-- A subclass with table `users` and an override table sending the
domain field `myField` to the storage column `weird_col`. -/
def ctxOverride : QueryCtx := ⟨"users", some [("myField", "weird_col")]⟩

/-! Helper lemmas shared by the claim theorems. -/

/-- The filter loop computes the spec-side numbered conditions over the
included entries, and the included values in order. -/
theorem buildFilterLoop_eq (ctx : QueryCtx) (fs : Obj) :
    ∀ n, buildFilterLoop ctx fs n =
      (specConds ctx (includedFilters ctx fs) n,
       (includedFilters ctx fs).map Prod.snd) := by
  induction fs with
  | nil => intro n; rfl
  | cons kv rest ih =>
    intro n
    by_cases hv : kv.2 ≠ JsValue.undef ∧ kv.2 ≠ JsValue.null
    · by_cases hc : getColumnName ctx kv.1 = ""
      · simp [buildFilterLoop, includedFilters, List.filter_cons, hv, hc, ih n]
      · simp [buildFilterLoop, includedFilters, List.filter_cons, hv, hv.1, hv.2,
          hc, ih, specConds]
    · have hveq : kv.2 = JsValue.undef ∨ kv.2 = JsValue.null := by
        by_cases h1 : kv.2 = JsValue.undef
        · exact Or.inl h1
        · exact Or.inr (by
            by_cases h2 : kv.2 = JsValue.null
            · exact h2
            · exact absurd ⟨h1, h2⟩ hv)
      have : buildFilterLoop ctx (kv :: rest) n = buildFilterLoop ctx rest n := by
        simp [buildFilterLoop, hv]
      rw [this, ih n]
      rcases hveq with h1 | h1 <;>
        simp [includedFilters, List.filter_cons, h1]

/-- The number of spec-side conditions equals the number of entries. -/
theorem specConds_length (ctx : QueryCtx) (l : Obj) :
    ∀ n, (specConds ctx l n).length = l.length := by
  induction l with
  | nil => intro n; rfl
  | cons kv rest ih => intro n; simp [specConds, ih]

/-- When every column resolves to a non-empty name, the identifier loop
numbers every entry from `i + 1` upward and keeps every value. -/
theorem getColumnMappingLoop_eq (ctx : QueryCtx) (data : Obj) :
    ∀ i, (∀ kv ∈ data, getColumnName ctx kv.1 ≠ "") →
      getColumnMappingLoop ctx data i =
        .ok (specConds ctx data (i + 1), data.map Prod.snd) := by
  induction data with
  | nil => intro i _; rfl
  | cons kv rest ih =>
    intro i h
    have hc : getColumnName ctx kv.1 ≠ "" := h kv (by simp)
    have hrest : ∀ kv2 ∈ rest, getColumnName ctx kv2.1 ≠ "" :=
      fun kv2 hm => h kv2 (by simp [hm])
    simp [getColumnMappingLoop, hc, ih (i + 1) hrest, specConds]

/-- Closed form of `getColumnMapping` on a non-empty identifier with
valid columns. -/
theorem getColumnMapping_eq (ctx : QueryCtx) (data : Obj)
    (hne : data ≠ []) (hcols : ∀ kv ∈ data, getColumnName ctx kv.1 ≠ "") :
    getColumnMapping ctx data =
      .ok (String.intercalate " AND " (specConds ctx data 1),
           data.map Prod.snd) := by
  have hl : ¬ data.length = 0 := by simpa using hne
  simp [getColumnMapping, hl, getColumnMappingLoop_eq ctx data 0 hcols]

/-- Closed form of `buildFilterClause`. -/
theorem buildFilterClause_eq (ctx : QueryCtx) (fs : Obj) :
    buildFilterClause ctx fs =
      (if includedFilters ctx fs = [] then "1=1"
       else String.intercalate " AND " (specConds ctx (includedFilters ctx fs) 1),
       (includedFilters ctx fs).map Prod.snd) := by
  have h := buildFilterLoop_eq ctx fs 1
  by_cases hinc : includedFilters ctx fs = []
  · simp [buildFilterClause, h, hinc, specConds]
  · have hlen : (specConds ctx (includedFilters ctx fs) 1).length > 0 := by
      rw [specConds_length]
      exact List.length_pos.mpr hinc
    simp [buildFilterClause, h, hinc, hlen]

/-- Lowering an ASCII capital produces an ASCII lowercase letter, and
re-uppercasing it restores the original. -/
theorem toLower_toUpper_ascii (c : Char) (h : isUpperAscii c = true) :
    isLowerAscii (toLowerChar c) = true ∧ toUpperChar (toLowerChar c) = c := by
  have hb : 65 ≤ c.toNat ∧ c.toNat ≤ 90 := by simpa [isUpperAscii] using h
  obtain ⟨n, hn⟩ : ∃ n, c.toNat = n := ⟨_, rfl⟩
  obtain ⟨h1, h2⟩ := hb
  rw [hn] at h1 h2
  have hc : c = Char.ofNat n := by rw [← hn, Char.ofNat_toNat]
  subst hc
  interval_cases n <;> exact ⟨by decide, by decide⟩

/-- `snakeToCamel` leaves a non-underscore head character in place. -/
theorem snakeToCamelList_cons_ne (c : Char) (t : List Char) (h : ¬ c = '_') :
    snakeToCamelList (c :: t) = c :: snakeToCamelList t := by
  cases t with
  | nil => simp [snakeToCamelList, h]
  | cons d t2 => simp [snakeToCamelList, h]

/-- An underscore followed by a non-lowercase character is left in place
by `snakeToCamel`, which resumes scanning right after it. -/
theorem snakeToCamelList_underscore_cons (e : Char) (l : List Char)
    (he : isLowerAscii e = false) :
    snakeToCamelList ('_' :: e :: l) = '_' :: snakeToCamelList (e :: l) := by
  simp [snakeToCamelList, he]

/-- The first character `camelToSnake` emits for a non-empty input whose
head is not lowercase is itself not lowercase (either the head unchanged
or an inserted underscore). -/
theorem camelToSnakeList_head (d : Char) (t : List Char)
    (hd : isLowerAscii d = false) :
    ∃ e l, camelToSnakeList (d :: t) = e :: l ∧ isLowerAscii e = false := by
  by_cases hu : isUpperAscii d = true
  · exact ⟨'_', toLowerChar d :: camelToSnakeList t,
      by simp [camelToSnakeList, hu], by decide⟩
  · exact ⟨d, camelToSnakeList t, by simp [camelToSnakeList, hu], hd⟩

/-- Round trip of the convention rewrites at the character level: on any
name with no underscore immediately followed by a lowercase letter,
`snakeToCamel` undoes `camelToSnake` exactly. -/
theorem snakeToCamel_camelToSnake_list (s : List Char)
    (h : noUnderscoreLower s = true) :
    snakeToCamelList (camelToSnakeList s) = s := by
  induction s with
  | nil => rfl
  | cons c rest ih =>
    have hrest : noUnderscoreLower rest = true := by
      cases rest with
      | nil => rfl
      | cons d t => exact (by simpa [noUnderscoreLower] using h : _ ∧ _).2
    by_cases hu : isUpperAscii c = true
    · obtain ⟨hl, hul⟩ := toLower_toUpper_ascii c hu
      rw [show camelToSnakeList (c :: rest)
            = '_' :: toLowerChar c :: camelToSnakeList rest from by
          simp [camelToSnakeList, hu]]
      rw [show snakeToCamelList ('_' :: toLowerChar c :: camelToSnakeList rest)
            = toUpperChar (toLowerChar c) :: snakeToCamelList (camelToSnakeList rest) from by
          simp [snakeToCamelList, hl]]
      rw [hul, ih hrest]
    · have hstep : camelToSnakeList (c :: rest) = c :: camelToSnakeList rest := by
        simp [camelToSnakeList, hu]
      by_cases hun : c = '_'
      · subst hun
        rw [hstep]
        cases rest with
        | nil => rfl
        | cons d t =>
          have hd : isLowerAscii d = false := by
            have hp := (by simpa [noUnderscoreLower] using h : _ ∧ _).1
            simpa using hp
          obtain ⟨e, l, hcl, hel⟩ := camelToSnakeList_head d t hd
          rw [hcl, snakeToCamelList_underscore_cons e l hel, ← hcl, ih hrest]
      · rw [hstep, snakeToCamelList_cons_ne c _ hun, ih hrest]

/-- String-level round trip under the same hypothesis. -/
theorem snakeToCamel_camelToSnake (s : String)
    (h : noUnderscoreLowerStr s = true) :
    snakeToCamel (camelToSnake s) = s := by
  cases s with
  | mk data => exact congrArg String.mk (snakeToCamel_camelToSnake_list data h)

/-- `mapRowToEntity` is the key-wise `snakeToCamel` map. -/
theorem mapRowToEntity_eq_map (row : Obj) :
    mapRowToEntity row = row.map fun kv => (snakeToCamel kv.1, kv.2) := by
  induction row with
  | nil => rfl
  | cons kv rest ih => simp [mapRowToEntity, ih]

/-! Claim theorems. -/

/-- Claim C1: the claim (and the spec's authoritative rule) says the i-th
update assignment of `updateAndReturn` must use placeholder `$(k+i)` for
`k` identifier values, matching the value's position in the concatenated
parameter array.  The code instead emits `$(k+i+1)`: with one identifier
entry and one update entry the bound array has the update value at
position 2, yet the SET clause references `$3` — while the sibling
`update` (no RETURNING) references `$2` as the rule demands.  This
evaluates both builders at that failing input. -/
theorem updateAndReturn_placeholders_off_by_one :
    updateAndReturnQuery ctxUsers [("id", JsValue.num 1)] [("name", JsValue.str "x")] =
      Except.ok ⟨"\n        UPDATE users\n        SET name = $3\n        WHERE id = $1\n        RETURNING *",
        [JsValue.num 1, JsValue.str "x"]⟩ ∧
    updateQuery ctxUsers [("id", JsValue.num 1)] [("name", JsValue.str "x")] =
      Except.ok ⟨"\n        UPDATE users\n        SET name = $2\n        WHERE id = $1",
        [JsValue.num 1, JsValue.str "x"]⟩ ∧
    [JsValue.num 1, JsValue.str "x"].length = 2 :=
  ⟨rfl, rfl, rfl⟩

/-- Claim C2 counterexample: a filter entry whose value is an explicit
null is NOT included as a `column = $n` condition with null bound; the
builder skips it and degenerates to the tautology, refuting the claim as
stated. -/
theorem null_filter_skipped_cex :
    buildFilterClause ctxUsers [("a", JsValue.null)] = ("1=1", []) ∧
    ("1=1", ([] : List JsValue)) ≠ ("a = $1", [JsValue.null]) :=
  ⟨rfl, by decide⟩

/-- Claim C2 (amended): the filter builder skips entries whose value is
undefined AND entries whose value is null (its output only depends on the
remaining entries), and when no entry remains after skipping the result
is the tautology "1=1" with an empty parameter list. -/
theorem filterClause_skips_undefined_and_null (ctx : QueryCtx) (filters : Obj) :
    buildFilterClause ctx filters =
      buildFilterClause ctx (filters.filter fun kv =>
        !(kv.2 == JsValue.undef) && !(kv.2 == JsValue.null)) ∧
    (includedFilters ctx filters = [] →
      buildFilterClause ctx filters = ("1=1", [])) := by
  constructor
  · rw [buildFilterClause_eq, buildFilterClause_eq]
    have hsame : includedFilters ctx (filters.filter fun kv =>
        !(kv.2 == JsValue.undef) && !(kv.2 == JsValue.null)) =
        includedFilters ctx filters := by
      simp only [includedFilters, List.filter_filter]
      apply List.filter_congr
      intro kv _
      cases h1 : kv.2 == JsValue.undef <;> cases h2 : kv.2 == JsValue.null <;>
        simp [h1, h2]
    rw [hsame]
  · intro h
    rw [buildFilterClause_eq, h]
    rfl

/-- Claim C2 witness: with one null-valued and one undefined-valued
entry, nothing remains and the clause is the tautology. -/
theorem filterClause_skips_undefined_and_null_witness :
    includedFilters ctxUsers [("a", JsValue.null), ("b", JsValue.undef)] = [] ∧
    buildFilterClause ctxUsers [("a", JsValue.null), ("b", JsValue.undef)] =
      ("1=1", []) :=
  ⟨rfl, (filterClause_skips_undefined_and_null ctxUsers
    [("a", JsValue.null), ("b", JsValue.undef)]).2 rfl⟩

/-- Claim C3: every single-row operation (find, get, exists, update,
updateAndReturn, delete) given an empty identifier fails with the
"Identifier object cannot be empty" validation error and issues no
statement to the store, for every store and update object. -/
theorem empty_identifier_rejected_before_store (ctx : QueryCtx) (store : Store)
    (updates : Obj) :
    runFind ctx store [] =
      ([], .error (.validation "Identifier object cannot be empty")) ∧
    runGet ctx store [] =
      ([], .error (.validation "Identifier object cannot be empty")) ∧
    runExists ctx store [] =
      ([], .error (.validation "Identifier object cannot be empty")) ∧
    runUpdate ctx store [] updates =
      ([], .error (.validation "Identifier object cannot be empty")) ∧
    runUpdateAndReturn ctx store [] updates =
      ([], .error (.validation "Identifier object cannot be empty")) ∧
    runDelete ctx store [] =
      ([], .error (.validation "Identifier object cannot be empty")) :=
  ⟨rfl, rfl, rfl, rfl, rfl, rfl⟩

/-- Claim C4: deleteAll with an empty filter object raises its validation
error with no statement issued; with a non-empty filter it issues exactly
the parameterized DELETE and returns the store-reported affected-row
count. -/
theorem deleteAll_empty_rejected_nonempty_executes (ctx : QueryCtx)
    (store : Store) (filters : Obj) (res : StoreResult) (n : Nat)
    (hne : filters ≠ [])
    (hres : ∀ stmt, store stmt = Except.ok res) (hn : res.rowCount = some n) :
    runDeleteAll ctx store [] =
      ([], .error (.validation
        ("deleteAll requires at least one filter. Use drop() to delete all records from "
          ++ ctx.table))) ∧
    runDeleteAll ctx store filters =
      ([⟨"DELETE FROM " ++ ctx.table ++ " WHERE " ++ (buildFilterClause ctx filters).1,
         (buildFilterClause ctx filters).2⟩], .ok n) := by
  constructor
  · rfl
  · have hl : ¬ filters.length = 0 := by simpa using hne
    rcases hb : buildFilterClause ctx filters with ⟨w, p⟩
    simp [runDeleteAll, hl, hb, hres, hn]

/-- Claim C4 witness: a one-entry filter against a store reporting three
affected rows. -/
theorem deleteAll_empty_rejected_nonempty_executes_witness :
    (([("a", JsValue.num 1)] : Obj) ≠ []) ∧
    runDeleteAll ctxUsers (fun _ => Except.ok ⟨[], some 3⟩) [("a", JsValue.num 1)] =
      ([⟨"DELETE FROM users WHERE a = $1", [JsValue.num 1]⟩], .ok 3) := by
  refine ⟨by decide, ?_⟩
  exact (deleteAll_empty_rejected_nonempty_executes ctxUsers
    (fun _ => Except.ok ⟨[], some 3⟩) [("a", JsValue.num 1)] ⟨[], some 3⟩ 3
    (by decide) (fun _ => rfl) rfl).2

/-- Claim C5: on a non-empty mapping whose columns all resolve, the
identifier builder numbers every entry `$1, $2, ...` in iteration order,
joins with " AND ", and returns the values in the same order; the filter
builder does the same over its included entries; and the spec's concrete
example `{a: 1, b: 2}` yields `a = $1 AND b = $2` with values `[1, 2]`. -/
theorem predicate_builders_positional (ctx : QueryCtx) (data : Obj)
    (hne : data ≠ []) (hcols : ∀ kv ∈ data, getColumnName ctx kv.1 ≠ "") :
    getColumnMapping ctx data =
      .ok (String.intercalate " AND " (specConds ctx data 1),
           data.map Prod.snd) ∧
    buildFilterClause ctx data =
      (if includedFilters ctx data = [] then "1=1"
       else String.intercalate " AND " (specConds ctx (includedFilters ctx data) 1),
       (includedFilters ctx data).map Prod.snd) ∧
    buildFilterClause ctxUsers [("a", JsValue.num 1), ("b", JsValue.num 2)] =
      ("a = $1 AND b = $2", [JsValue.num 1, JsValue.num 2]) :=
  ⟨getColumnMapping_eq ctx data hne hcols, buildFilterClause_eq ctx data, rfl⟩

/-- Claim C5 witness: instantiated at the spec's own example mapping. -/
theorem predicate_builders_positional_witness :
    (([("a", JsValue.num 1), ("b", JsValue.num 2)] : Obj) ≠ []) ∧
    (∀ kv ∈ ([("a", JsValue.num 1), ("b", JsValue.num 2)] : Obj),
      getColumnName ctxUsers kv.1 ≠ "") ∧
    getColumnMapping ctxUsers [("a", JsValue.num 1), ("b", JsValue.num 2)] =
      .ok ("a = $1 AND b = $2", [JsValue.num 1, JsValue.num 2]) := by
  refine ⟨by decide, by decide, ?_⟩
  exact (predicate_builders_positional ctxUsers
    [("a", JsValue.num 1), ("b", JsValue.num 2)] (by decide) (by decide)).1

/-- Claim C6: when the identifier is non-empty (and its columns resolve)
and the store reports zero affected rows without a low-level error,
update, updateAndReturn and delete all surface
`NotFoundError(table, identifier)` to the caller. -/
theorem zero_rowcount_promoted_to_notFound (ctx : QueryCtx) (store : Store)
    (identifier updates : Obj) (res : StoreResult)
    (hne : identifier ≠ []) (hcols : ∀ kv ∈ identifier, getColumnName ctx kv.1 ≠ "")
    (hres : ∀ stmt, store stmt = Except.ok res) (h0 : res.rowCount = some 0) :
    (runUpdate ctx store identifier updates).2 =
      .error (.notFound ctx.table identifier) ∧
    (runUpdateAndReturn ctx store identifier updates).2 =
      .error (.notFound ctx.table identifier) ∧
    (runDelete ctx store identifier).2 =
      .error (.notFound ctx.table identifier) := by
  have hmap := getColumnMapping_eq ctx identifier hne hcols
  refine ⟨?_, ?_, ?_⟩ <;>
    simp [runUpdate, runUpdateAndReturn, runDelete, updateQuery,
      updateAndReturnQuery, deleteQuery, hmap, hres, h0]

/-- Claim C6 witness: one-field identifier, store reporting zero rows. -/
theorem zero_rowcount_promoted_to_notFound_witness :
    (([("id", JsValue.num 1)] : Obj) ≠ []) ∧
    (runDelete ctxUsers (fun _ => Except.ok ⟨[], some 0⟩) [("id", JsValue.num 1)]).2 =
      .error (.notFound "users" [("id", JsValue.num 1)]) := by
  refine ⟨by decide, ?_⟩
  exact (zero_rowcount_promoted_to_notFound ctxUsers
    (fun _ => Except.ok ⟨[], some 0⟩) [("id", JsValue.num 1)] []
    ⟨[], some 0⟩ (by decide) (by decide) (fun _ => rfl) rfl).2.2

/-- Claim C7: findAll (and getAll, which delegates with no filters)
composes WHERE, then ORDER BY only if requested (resolved through
`getColumnName`, direction defaulting to ASC, no placeholder), then LIMIT
only if requested, then OFFSET only if requested, LIMIT and OFFSET taking
the next positional placeholders after the filter parameters with their
values appended in that order. -/
theorem findAll_clause_composition (ctx : QueryCtx) (filters : Option Obj)
    (options : Option FindOptions) :
    findAllQuery ctx filters options = specFindAllStmt ctx filters options ∧
    getAllQuery ctx options = specFindAllStmt ctx none options := by
  have H : ∀ fs : Option Obj,
      findAllQuery ctx fs options = specFindAllStmt ctx fs options := by
    intro fs
    cases options with
    | none =>
      simp [findAllQuery, specFindAllStmt, requestedOrderBy, requestedDirection,
        requestedLimit, requestedOffset, String.append_empty, String.append_assoc]
    | some o =>
      obtain ⟨lim, off, ob, od⟩ := o
      cases ob <;> cases lim <;> cases off <;>
        simp [findAllQuery, specFindAllStmt, requestedOrderBy, requestedDirection,
          requestedLimit, requestedOffset, String.append_empty, String.append_assoc,
          List.length_append] <;>
        split_ifs <;>
        simp_all [String.append_assoc, List.length_append]
  exact ⟨H filters, H none⟩

/-- Claim C8 counterexample: with an override table sending `myField` to
`weird_col`, the storage direction resolves `myField` through the
override, but mapping the row key `weird_col` back yields `weirdCol` —
the row mapper never consults the override table, refuting the
both-directions claim. -/
theorem row_mapper_ignores_override_cex :
    getColumnName ctxOverride "myField" = "weird_col" ∧
    mapRowToEntity [("weird_col", JsValue.num 5)] = [("weirdCol", JsValue.num 5)] ∧
    "weirdCol" ≠ "myField" :=
  ⟨rfl, rfl, by decide⟩

/-- Claim C8 (amended): only the domain-to-storage direction
(`getColumnName`) consults the override table first and exactly, falling
back to the convention rewrite; the storage-to-domain direction (the row
mapper) applies the convention rewrite unconditionally to every key. -/
theorem naming_transform_directions (ctx : QueryCtx) (key column : String)
    (row : Obj) :
    (ctx.COLUMN_MAP.bind (fun m => m.lookup key) = some column →
      getColumnName ctx key = column) ∧
    (ctx.COLUMN_MAP.bind (fun m => m.lookup key) = none →
      getColumnName ctx key = camelToSnake key) ∧
    mapRowToEntity row = row.map fun kv => (snakeToCamel kv.1, kv.2) :=
  ⟨fun h => by simp [getColumnName, h],
   fun h => by simp [getColumnName, h],
   mapRowToEntity_eq_map row⟩

/-- Claim C8 witness: instantiated at the override context. -/
theorem naming_transform_directions_witness :
    ctxOverride.COLUMN_MAP.bind (fun m => m.lookup "myField") = some "weird_col" ∧
    getColumnName ctxOverride "myField" = "weird_col" ∧
    mapRowToEntity [("a_b", JsValue.num 5)] =
      ([("a_b", JsValue.num 5)] : Obj).map fun kv => (snakeToCamel kv.1, kv.2) :=
  ⟨rfl,
   (naming_transform_directions ctxOverride "myField" "weird_col" []).1 rfl,
   (naming_transform_directions ctxOverride "myField" "weird_col"
     [("a_b", JsValue.num 5)]).2.2⟩

/-- Claim C9 counterexample: the field name `a_b` contains no capital
letter (hence no consecutive capitals, no leading capital and no
digit-adjacent case boundary) and no digit, and has no override entry,
yet the key-wise storage round trip turns it into `aB`, refuting the
claim under its stated boundary conditions. -/
theorem roundtrip_claim_conditions_cex :
    containsUpperAscii "a_b" = false ∧
    containsDigitAscii "a_b" = false ∧
    hasOverride ctxUsers "a_b" = false ∧
    mapRowToEntity (entityToRow ctxUsers [("a_b", JsValue.num 1)]) =
      [("aB", JsValue.num 1)] ∧
    ([("aB", JsValue.num 1)] : Obj) ≠ [("a_b", JsValue.num 1)] :=
  ⟨rfl, rfl, rfl, rfl, by decide⟩

/-- Claim C9 (amended): for every entity whose field names have no
override-table entry and contain no underscore immediately followed by a
lowercase letter — the one genuinely ambiguous boundary for this pair of
rewrites — the key-wise round trip `entityToRow` then `mapRowToEntity`
returns the entity unchanged, values identical. -/
theorem entity_roundtrip_no_underscore_lowercase (ctx : QueryCtx) (e : Obj)
    (h : ∀ kv ∈ e, hasOverride ctx kv.1 = false ∧ noUnderscoreLowerStr kv.1 = true) :
    mapRowToEntity (entityToRow ctx e) = e := by
  induction e with
  | nil => rfl
  | cons kv rest ih =>
    obtain ⟨ho, hn⟩ := h kv (by simp)
    have hnone : ctx.COLUMN_MAP.bind (fun m => m.lookup kv.1) = none := by
      simpa [hasOverride] using ho
    have hcol : getColumnName ctx kv.1 = camelToSnake kv.1 := by
      simp [getColumnName, hnone]
    have ih2 := ih fun kv2 hm => h kv2 (by simp [hm])
    simp only [entityToRow, getCreateMapping, List.map_cons] at ih2 ⊢
    simp [mapRowToEntity, hcol, snakeToCamel_camelToSnake kv.1 hn, ih2]

/-- Claim C9 witness: a camelCase entity round-trips intact. -/
theorem entity_roundtrip_witness :
    (∀ kv ∈ ([("userId", JsValue.num 7), ("displayName", JsValue.str "a")] : Obj),
      hasOverride ctxUsers kv.1 = false ∧ noUnderscoreLowerStr kv.1 = true) ∧
    mapRowToEntity (entityToRow ctxUsers
        [("userId", JsValue.num 7), ("displayName", JsValue.str "a")]) =
      [("userId", JsValue.num 7), ("displayName", JsValue.str "a")] :=
  ⟨by decide,
   entity_roundtrip_no_underscore_lowercase ctxUsers
     [("userId", JsValue.num 7), ("displayName", JsValue.str "a")] (by decide)⟩

/-- Claim C10: there is a non-empty filter object all of whose values are
undefined or null that passes deleteAll's emptiness guard, so a
statement is issued, and that statement is the unconditional full-table
DELETE with the tautological condition and no bound parameters. -/
theorem deleteAll_valueless_filters_full_table_delete :
    ∃ filters : Obj, filters ≠ [] ∧
      (∀ kv ∈ filters, kv.2 = JsValue.undef ∨ kv.2 = JsValue.null) ∧
      ∀ store : Store,
        (runDeleteAll ctxUsers store filters).1 =
          [⟨"DELETE FROM users WHERE 1=1", []⟩] :=
  ⟨[("a", JsValue.undef)], by decide, by decide, fun _ => rfl⟩

end BaseQueries
